import Mathlib

/-!
Verification development for the `investment` Soroban contract of this
repository (`src/investment/src/*.rs`), shallowly embedded in Lean.

Conventions of the embedding:
* `i128` values are modelled as `Int`; Rust's `i128` division truncates
  toward zero, so every division taken from the source is written with
  `Int.tdiv` (Lean's `/` on `Int` rounds toward negative infinity).
* `u32`/`u64` values (rates, counts, timestamps) are modelled as `Nat`,
  with casts to `Int` exactly where the source casts to `i128`.
* Addresses are opaque identities compared only for equality; they are
  modelled as `Nat`.
* Host facilities (clock, token transfer, authorization) are passed as
  explicit arguments: the current time as a `Nat`, the external token
  transfer outcome as a `Bool`, and authorization is assumed to have
  succeeded (an authorization failure aborts the whole call before the
  function body runs, so it needs no modelling inside the body).
-/

/-! ## balance.rs -/

def LOWER_AMOUNT_FOR_COMMISSION_REDUCTION : Int := 100

def LOWER_DIVISOR : Nat := 10

def UPPER_DIVISOR : Nat := 60

def AMOUNT_PER_COMMISSION_REDUCTION : Int := 400

/-- `calculate_rate_denominator` from `src/investment/src/balance.rs`. -/
def calculate_rate_denominator (amount : Int) : Nat :=
  if amount ≤ LOWER_AMOUNT_FOR_COMMISSION_REDUCTION then
    LOWER_DIVISOR
  else
    let a := Int.tdiv (amount - LOWER_AMOUNT_FOR_COMMISSION_REDUCTION)
      AMOUNT_PER_COMMISSION_REDUCTION
    if a > (UPPER_DIVISOR : Int) then
      UPPER_DIVISOR
    else
      LOWER_DIVISOR + a.toNat

/-- `ContractBalances` from `src/investment/src/balance.rs` (the ledger). -/
structure ContractBalances where
  reserve : Int
  project : Int
  comission : Int
  received_so_far : Int
  payments : Int
  reserve_contributions : Int
  project_withdrawals : Int
  moved_from_project_to_reserve : Int
  deriving DecidableEq, Repr

/-- `ContractBalances::new`. -/
def ContractBalances.new : ContractBalances :=
  { reserve := 0, project := 0, comission := 0, received_so_far := 0,
    payments := 0, reserve_contributions := 0, project_withdrawals := 0,
    moved_from_project_to_reserve := 0 }

/-- `ContractBalances::sum`. -/
def ContractBalances.sum (b : ContractBalances) : Int :=
  b.comission + b.project + b.reserve

/-- `Amount` from `src/investment/src/balance.rs`. -/
structure Amount where
  amount_to_invest : Int
  amount_to_reserve_fund : Int
  amount_to_commission : Int
  deriving DecidableEq, Repr

/-- `Amount::from_investment` from `src/investment/src/balance.rs`
(tiered commission denominator; the rate is a `u32`). -/
def Amount.from_investment (amount : Int) (i_rate : Nat) : Amount :=
  let rate_denominator := calculate_rate_denominator amount
  let amount_to_commission :=
    Int.tdiv (Int.tdiv (Int.tdiv (amount * (i_rate : Int)) (rate_denominator : Int)) 100) 100
  let amount_to_reserve_fund := Int.tdiv (amount * 5) 100
  let amount_to_invest := amount - amount_to_commission - amount_to_reserve_fund
  { amount_to_invest, amount_to_reserve_fund, amount_to_commission }

/-- The older one-argument `Amount::from_investment` from
`src/investment/src/data.rs` (flat 2% commission).  `build_investment` in
`src/investment/src/investment.rs` calls `Amount::from_investment` with a
single argument, which resolves to this version. -/
def Amount.from_investment_flat (amount : Int) : Amount :=
  let amount_to_commission := Int.tdiv (amount * 2) 100
  let amount_to_reserve_fund := Int.tdiv (amount * 5) 100
  let amount_to_invest := amount - amount_to_commission - amount_to_reserve_fund
  { amount_to_invest, amount_to_reserve_fund, amount_to_commission }

/-- `recalculate_contract_balances_from_investment` from `balance.rs`. -/
def recalculate_contract_balances_from_investment
    (contract_balances : ContractBalances) (amounts : Amount) : ContractBalances :=
  { contract_balances with
    comission := contract_balances.comission + amounts.amount_to_commission,
    reserve := contract_balances.reserve + amounts.amount_to_reserve_fund,
    project := contract_balances.project + amounts.amount_to_invest,
    received_so_far := contract_balances.received_so_far +
      amounts.amount_to_reserve_fund + amounts.amount_to_invest }

/-- `increment_reserve_balance_from_company_contribution` from `balance.rs`. -/
def increment_reserve_balance_from_company_contribution
    (contract_balances : ContractBalances) (amount : Int) : ContractBalances :=
  { contract_balances with
    reserve := contract_balances.reserve + amount,
    reserve_contributions := contract_balances.reserve_contributions + amount }

/-- `decrement_project_balance_from_company_withdrawal` from `balance.rs`. -/
def decrement_project_balance_from_company_withdrawal
    (contract_balances : ContractBalances) (amount : Int) : ContractBalances :=
  { contract_balances with
    project := contract_balances.project - amount,
    project_withdrawals := contract_balances.project_withdrawals + amount }

/-- `decrement_project_balance_from_payment_to_investor` from `balance.rs`
(despite its name it decrements the reserve pool). -/
def decrement_project_balance_from_payment_to_investor
    (contract_balances : ContractBalances) (amount : Int) : ContractBalances :=
  { contract_balances with
    reserve := contract_balances.reserve - amount,
    payments := contract_balances.payments + amount }

/-- `move_from_project_balance_to_reserve_balance` from `balance.rs`. -/
def move_from_project_balance_to_reserve_balance
    (contract_balances : ContractBalances) (amount : Int) : ContractBalances :=
  { contract_balances with
    project := contract_balances.project - amount,
    reserve := contract_balances.reserve + amount,
    moved_from_project_to_reserve := contract_balances.moved_from_project_to_reserve + amount }

/-! ## investment.rs and data.rs: types -/

/-- `InvestmentStatus` from `src/investment/src/investment.rs`. -/
inductive InvestmentStatus where
  | Blocked
  | Claimable
  | WaitingForPayment
  | CashFlowing
  | Finished
  deriving DecidableEq, Repr

/-- `InvestmentReturnType` from `src/investment/src/investment.rs`. -/
inductive InvestmentReturnType where
  | ReverseLoan
  | Coupon
  | OneTimePayment
  deriving DecidableEq, Repr

/-- `InvestmentReturnType::from_number` (the `FromNumber` impl). -/
def InvestmentReturnType.from_number (value : Nat) : Option InvestmentReturnType :=
  match value with
  | 1 => some .ReverseLoan
  | 2 => some .Coupon
  | 3 => some .OneTimePayment
  | _ => none

/-- Lifecycle state of the contract.  `contract.rs` uses the variants
`Actve`, `Paused` and `FundsReached` (the `State` enum in `data.rs` is an
older iteration with different variants; the enum actually referenced by
`contract.rs` is not among the source files, so its variant set is taken
from the uses in `contract.rs` plus the spec's `Pending`). -/
inductive State where
  | Pending
  | Actve
  | Paused
  | FundsReached
  deriving DecidableEq, Repr

/-- `Investment` from `src/investment/src/investment.rs`. -/
structure Investment where
  deposited : Int
  accumulated_interests : Int
  total : Int
  claimable_ts : Nat
  last_transfer_ts : Nat
  status : InvestmentStatus
  regular_payment : Int
  paid : Int
  deriving DecidableEq, Repr

/-- `ContractData` from `src/investment/src/data.rs` (the configuration
singleton built by `__constructor` in `contract.rs`). -/
structure ContractData where
  interest_rate : Nat
  claim_block_days : Nat
  token : Nat
  project_address : Nat
  admin : Nat
  state : State
  return_type : InvestmentReturnType
  return_months : Nat
  min_per_investment : Int
  goal : Int
  deriving DecidableEq, Repr

/-- `build_investment` from `src/investment/src/investment.rs`.  The
ledger timestamp of the `Env` is passed as `now`.  (`contract.rs` calls
`build_investment` with a fourth `token_decimals` argument; that arity is
not among the source files, so the version present in `investment.rs` is
the one embedded.) -/
def build_investment (now : Nat) (cd : ContractData) (amount : Int) : Investment :=
  let amounts := Amount.from_investment_flat amount
  let real_amount := amounts.amount_to_invest + amounts.amount_to_reserve_fund
  let current_interest :=
    Int.tdiv (real_amount * (Int.tdiv (cd.interest_rate : Int) 100)) 100
  let status : InvestmentStatus :=
    if cd.claim_block_days > 0 then .Blocked else .Claimable
  let total := real_amount + current_interest
  let claimable_ts := now + cd.claim_block_days * 86400
  let regular_payment :=
    match cd.return_type with
    | .Coupon => Int.tdiv current_interest (cd.return_months : Int)
    | .ReverseLoan => Int.tdiv total (cd.return_months : Int)
    | .OneTimePayment => 0
  { deposited := real_amount,
    accumulated_interests := current_interest,
    total,
    claimable_ts,
    last_transfer_ts := 0,
    status,
    regular_payment,
    paid := 0 }

/-! ## multisig.rs -/

/-- `MultisigRequest` from `src/investment/src/multisig.rs` (the copy in
`data.rs` is identical).  `Vec<Address>` is modelled as `List Nat`. -/
structure MultisigRequest where
  function : String
  successful_signatures : Nat
  expected_addrs : List Nat
  signed_addrs : List Nat
  valid_ts : Nat
  amount : Int
  deriving DecidableEq, Repr

/-- `MultisigRequest::add_sig`: the source mutates `self` and returns the
new `signed_addrs` length, so the model returns the updated request
together with the returned length.  `push_back` appends unconditionally:
there is no check that `addr` has already signed. -/
def MultisigRequest.add_sig (r : MultisigRequest) (addr : Nat) : MultisigRequest × Nat :=
  if ¬ r.expected_addrs.contains addr then
    (r, r.signed_addrs.length)
  else
    let r' := { r with signed_addrs := r.signed_addrs ++ [addr] }
    (r', r'.signed_addrs.length)

/-- `MultisigRequest::is_valid_signature`. -/
def MultisigRequest.is_valid_signature (r : MultisigRequest) (addr : Nat) : Bool :=
  r.expected_addrs.contains addr

/-- `MultisigRequest::is_completed`. -/
def MultisigRequest.is_completed (r : MultisigRequest) : Bool :=
  r.signed_addrs.length == r.expected_addrs.length

/-- `MultisigRequest::is_expired`. -/
def MultisigRequest.is_expired (r : MultisigRequest) (current_ts : Nat) : Bool :=
  current_ts > r.valid_ts

/-- `MultisigRequest::new`. -/
def MultisigRequest.new (cd : ContractData) (function : String)
    (successful_signatures : Nat) (amount : Int) (valid_ts : Nat) : MultisigRequest :=
  { function,
    successful_signatures,
    expected_addrs := [cd.admin, cd.project_address],
    signed_addrs := [],
    valid_ts,
    amount }

/-! ## claim.rs and constants.rs -/

def SECONDS_IN_DAY : Nat := 86400

def SECONDS_IN_WEEK : Nat := 7 * SECONDS_IN_DAY

def SECONDS_IN_MONTH : Nat := 30 * SECONDS_IN_DAY

/-- `Claim` from `src/investment/src/claim.rs`. -/
structure Claim where
  next_transfer_ts : Nat
  amount_to_pay : Int
  deriving DecidableEq, Repr

/-- `Claim::is_claim_next` (the 7-day lookahead window), with the ledger
timestamp passed as `now`. -/
def Claim.is_claim_next (c : Claim) (now : Nat) : Bool :=
  c.next_transfer_ts ≤ now + 7 * 24 * 60 * 60

/-- `calculate_next_claim` from `claim.rs`. -/
def calculate_next_claim (now : Nat) (investment : Investment) : Claim :=
  let seconds_in_a_month := 30 * 24 * 60 * 60
  { next_transfer_ts :=
      if investment.last_transfer_ts > 0 then
        investment.last_transfer_ts + seconds_in_a_month
      else
        now + seconds_in_a_month,
    amount_to_pay := investment.regular_payment }

/-! ## Errors (the `Error` enum used by `contract.rs`)

`contract.rs` refers to error variants (`AmountLessThanMinimum`,
`WouldExceedGoal`, ...) that are not in the older `Error` enum of
`data.rs`; the variant set below is taken from the uses in `contract.rs`. -/

inductive Error where
  | AddressInsufficientBalance
  | ContractInsufficientBalance
  | AddressHasNotInvested
  | AddressInvestmentIsNotClaimableYet
  | AddressInvestmentIsFinished
  | AddressInvestmentNextTransferNotClaimableYet
  | ProjectBalanceInsufficientAmount
  | ContractMustBeActiveToBePaused
  | ContractMustBePausedToRestartAgain
  | ContractMustBeActiveToInvest
  | AmountLessThanMinimum
  | WouldExceedGoal
  | InterestRateMustBeGreaterThanZero
  | GoalMustBeGreaterThanZero
  | ReturnMonthsMustBeGreaterThanZero
  | MinPerInvestmentMustBeGreaterThanZero
  | UnsupportedReturnType
  | RecipientCannotReceivePayment
  | InvalidPaymentData
  deriving DecidableEq, Repr

deriving instance DecidableEq for Except

/-! ## Storage and contract state

`contract.rs` reads and writes investments through
`get_investment(&env, &addr, ts)` / `set_investment(e, addr, investment)`,
keyed by the pair (investor address, claim timestamp); the `storage.rs`
present among the source files is an older iteration keyed by the address
alone, and its `get_investment` takes no timestamp, so it cannot be the
module `contract.rs` compiles against. -/

/-- Modelled from the spec: the durable investment-record store, keyed by
the composite identity (investor principal, claim timestamp).  The
matching `set_investment`/`get_investment`/`DataKey::Investment` of the
current iteration are not among the source files (only their callers in
`contract.rs` and the integration tests are); the spec says records are
"keyed by (investor principal, claim timestamp) to allow multiple
concurrent investments per investor". -/
abbrev InvestmentStore : Type := List ((Nat × Nat) × Investment)

/-- Modelled from the spec: `set_investment` stores the record under the
key (investor address, record's claim timestamp). -/
def set_investment (s : InvestmentStore) (addr : Nat) (investment : Investment) :
    InvestmentStore :=
  ((addr, investment.claimable_ts), investment) :: s

/-- Modelled from the spec: `get_investment` looks the record up by the
composite key (investor address, claim timestamp). -/
def get_investment (s : InvestmentStore) (addr : Nat) (ts : Nat) : Option Investment :=
  List.lookup (addr, ts) s

/-- The claims map (`Map<Address, Claim>` in instance storage). -/
abbrev ClaimsMap : Type := List (Nat × Claim)

/-- `Map::set` of the claims map: overwrites the entry of `addr`. -/
def ClaimsMap.set (m : ClaimsMap) (addr : Nat) (c : Claim) : ClaimsMap :=
  (addr, c) :: m.filter (fun p => p.1 ≠ addr)

/-- The durable state a call can read and write: the Configuration, the
Balance Ledger, the investment records and the claims map. -/
structure ContractState where
  data : ContractData
  balances : ContractBalances
  investments : InvestmentStore
  claims : ClaimsMap
  deriving DecidableEq

/-- `update_investment` from `contract.rs`: persists the record and resets
the investor's Claim Scheduler entry. -/
def update_investment (now : Nat) (st : ContractState) (addr : Nat)
    (investment : Investment) : ContractState :=
  { st with
    investments := set_investment st.investments addr investment,
    claims := st.claims.set addr (calculate_next_claim now investment) }

/-! ## Payment computation -/

/-- Modelled from the spec: `process_investment_payment`, the helper
`contract.rs` calls to advance an investment record and obtain the amount
to transfer.  Its definition is not among the source files (the
`process_investment_claim` in `investment.rs` is an older iteration with
an incompatible signature that performs token transfers itself, which the
`process_investment_payment(&env, &mut investment, &contract_data)` call
in `contract.rs` cannot).  Per spec §4.4: a `Blocked` record transitions
to `CashFlowing`; `amount_to_transfer = regular_payment`; if ReverseLoan
and the installments after this one reach the configured count, mark
`Finished`; if Coupon and the installments reach the configured count,
mark `Finished` and add the returned principal to `amount_to_transfer`.
The record has no separate installment counter, so installments
transferred are represented through `paid`: every previous successful
payment added exactly one `regular_payment` to it. -/
def process_investment_payment (now : Nat) (investment : Investment)
    (contract_data : ContractData) : Investment × Int :=
  let status0 :=
    if investment.status = InvestmentStatus.Blocked then
      InvestmentStatus.CashFlowing
    else
      investment.status
  let installments_after := Int.tdiv investment.paid investment.regular_payment + 1
  let reached := installments_after ≥ (contract_data.return_months : Int)
  if contract_data.return_type = .ReverseLoan ∧ reached then
    ({ investment with
        status := .Finished,
        paid := investment.paid + investment.regular_payment,
        last_transfer_ts := now },
      investment.regular_payment)
  else if contract_data.return_type = .Coupon ∧ reached then
    ({ investment with
        status := .Finished,
        paid := investment.paid + investment.regular_payment + investment.deposited,
        last_transfer_ts := now },
      investment.regular_payment + investment.deposited)
  else
    ({ investment with
        status := status0,
        paid := investment.paid + investment.regular_payment,
        last_transfer_ts := now },
      investment.regular_payment)

/-! ## contract.rs entry points

Each entry point returns the durable state as it stands when the call
ends together with the call's result; an early `Err` return leaves the
state exactly as far as the writes executed before it (mirroring the
order of `update_*` calls in the source). -/

/-- `__constructor` from `contract.rs`. -/
def __constructor (admin_addr project_address token_addr : Nat) (i_rate : Nat)
    (claim_block_days : Nat) (goal : Int) (return_type : Nat) (return_months : Nat)
    (min_per_investment : Int) : Except Error ContractData :=
  if ¬ (i_rate > 0) then
    .error .InterestRateMustBeGreaterThanZero
  else if ¬ (goal > 0) then
    .error .GoalMustBeGreaterThanZero
  else if ¬ (return_months > 0) then
    .error .ReturnMonthsMustBeGreaterThanZero
  else if ¬ (min_per_investment > 0) then
    .error .MinPerInvestmentMustBeGreaterThanZero
  else
    match InvestmentReturnType.from_number return_type with
    | none => .error .UnsupportedReturnType
    | some ret_type =>
      .ok { interest_rate := i_rate,
            claim_block_days,
            token := token_addr,
            project_address,
            admin := admin_addr,
            state := .Actve,
            return_type := ret_type,
            return_months,
            min_per_investment,
            goal }

/-- `process_investor_payment` from `contract.rs`.  `now` is the ledger
timestamp, `transfer_ok` the outcome of the external
`try_transfer(contract, addr, amount_to_transfer)` call.  (On a
`transfer_ok = false` outcome the source distinguishes
`RecipientCannotReceivePayment` from `InvalidPaymentData`; the model
reports the first.)  The `u64` subtraction `now - last_transfer_ts` is
modelled with truncated `Nat` subtraction, which agrees with the source on
every reachable state (`last_transfer_ts` is a past ledger timestamp). -/
def process_investor_payment (now : Nat) (st : ContractState) (addr : Nat)
    (ts : Nat) (transfer_ok : Bool) : ContractState × Except Error Investment :=
  match get_investment st.investments addr ts with
  | none => (st, .error .AddressHasNotInvested)
  | some investment =>
    if ¬ (now ≥ investment.claimable_ts) then
      (st, .error .AddressInvestmentIsNotClaimableYet)
    else if ¬ (investment.status ≠ .Finished) then
      (st, .error .AddressInvestmentIsFinished)
    else if ¬ (investment.last_transfer_ts = 0 ∨
        now - investment.last_transfer_ts ≥ SECONDS_IN_MONTH) then
      (st, .error .AddressInvestmentNextTransferNotClaimableYet)
    else
      let pr := process_investment_payment now investment st.data
      let investment' := pr.1
      let amount_to_transfer := pr.2
      if ¬ (amount_to_transfer ≤ st.balances.reserve) then
        (st, .error .ContractInsufficientBalance)
      else if ¬ transfer_ok then
        (st, .error .RecipientCannotReceivePayment)
      else
        let st1 := update_investment now st addr investment'
        let balances' :=
          decrement_project_balance_from_payment_to_investor st1.balances
            amount_to_transfer
        ({ st1 with balances := balances' }, .ok investment')

/-- `invest` from `contract.rs`.  `addr_token_balance` is the investor's
external token balance, `transfer_ok` the outcome of the external
`try_transfer(addr, contract, amount)` call.  (`contract.rs` passes
`token_decimals` to `Amount::from_investment` and `build_investment`;
those arities are not among the source files, so the versions present in
`balance.rs` and `investment.rs` are the ones embedded.) -/
def invest (now : Nat) (st : ContractState) (addr : Nat) (amount : Int)
    (addr_token_balance : Int) (transfer_ok : Bool) :
    ContractState × Except Error Investment :=
  let contract_data := st.data
  if ¬ (amount ≥ contract_data.min_per_investment) then
    (st, .error .AmountLessThanMinimum)
  else if ¬ (contract_data.state = .Actve) then
    (st, .error .ContractMustBeActiveToInvest)
  else if ¬ (addr_token_balance ≥ amount) then
    (st, .error .AddressInsufficientBalance)
  else
    let amounts := Amount.from_investment amount contract_data.interest_rate
    let invested_amount := amounts.amount_to_invest + amounts.amount_to_reserve_fund
    if ¬ (st.balances.received_so_far + invested_amount ≤ contract_data.goal) then
      (st, .error .WouldExceedGoal)
    else if ¬ transfer_ok then
      (st, .error .RecipientCannotReceivePayment)
    else
      let balances' := recalculate_contract_balances_from_investment st.balances amounts
      let addr_investment := build_investment now contract_data amount
      let st1 :=
        update_investment now { st with balances := balances' } addr addr_investment
      let st2 :=
        if balances'.received_so_far ≥ contract_data.goal then
          { st1 with data := { contract_data with state := .FundsReached } }
        else
          st1
      (st2, .ok addr_investment)

/-! ## Ledger transition sequences (for the Balance Ledger invariant) -/

/-- One Balance Ledger transition, labelled by the transition function of
`balance.rs` that performs it. -/
inductive LedgerOp where
  | investment (amounts : Amount)
  | company_contribution (amount : Int)
  | company_withdrawal (amount : Int)
  | payment_to_investor (amount : Int)
  | move_to_reserve (amount : Int)
  deriving DecidableEq, Repr

/-- Apply one transition to the ledger. -/
def LedgerOp.apply (b : ContractBalances) : LedgerOp → ContractBalances
  | .investment amounts => recalculate_contract_balances_from_investment b amounts
  | .company_contribution a => increment_reserve_balance_from_company_contribution b a
  | .company_withdrawal a => decrement_project_balance_from_company_withdrawal b a
  | .payment_to_investor a => decrement_project_balance_from_payment_to_investor b a
  | .move_to_reserve a => move_from_project_balance_to_reserve_balance b a

/-- The caller-side balance check each transition's caller in `contract.rs`
performs before invoking it, strengthened with nonnegativity of the
amounts involved (the callers themselves never check the sign; see C1):
`invest` checks no pool balance, `add_company_transfer` checks only the
admin's external token balance, `single_withdrawn` requires
`project >= amount`, `process_investor_payment` requires
`amount_to_transfer <= reserve`, and `move_funds_to_the_reserve` requires
`project > amount`. -/
def LedgerOp.pre (b : ContractBalances) : LedgerOp → Bool
  | .investment amounts =>
      decide (0 ≤ amounts.amount_to_commission) &&
      decide (0 ≤ amounts.amount_to_reserve_fund) &&
      decide (0 ≤ amounts.amount_to_invest)
  | .company_contribution a => decide (0 ≤ a)
  | .company_withdrawal a => decide (0 ≤ a) && decide (b.project ≥ a)
  | .payment_to_investor a => decide (0 ≤ a) && decide (a ≤ b.reserve)
  | .move_to_reserve a => decide (0 ≤ a) && decide (b.project > a)

/-- Apply a sequence of transitions from left to right. -/
def apply_ledger_ops : ContractBalances → List LedgerOp → ContractBalances
  | b, [] => b
  | b, op :: ops => apply_ledger_ops (op.apply b) ops

/-- Every transition of the sequence satisfies its caller-side check in the
state it is applied to. -/
def ledger_ops_valid : ContractBalances → List LedgerOp → Bool
  | _, [] => true
  | b, op :: ops => op.pre b && ledger_ops_valid (op.apply b) ops

/-- The accounting identity the five transitions actually maintain: the
three pools sum to everything received (investments, commissions and
company contributions) minus everything paid out. -/
def ledger_invariant (b : ContractBalances) : Prop :=
  b.sum = b.received_so_far + b.comission + b.reserve_contributions -
    b.payments - b.project_withdrawals

/-- No ledger field is negative. -/
def ledger_fields_nonneg (b : ContractBalances) : Prop :=
  0 ≤ b.reserve ∧ 0 ≤ b.project ∧ 0 ≤ b.comission ∧ 0 ≤ b.received_so_far ∧
  0 ≤ b.payments ∧ 0 ≤ b.reserve_contributions ∧ 0 ≤ b.project_withdrawals ∧
  0 ≤ b.moved_from_project_to_reserve

/-! ## Concrete fixtures used by witnesses -/

/-- A configuration as built by `__constructor(admin=0, project=1, token=2,
i_rate=500, claim_block_days=7, goal=1000000, return_type=1 (ReverseLoan),
return_months=4, min_per_investment=100000)` — the parameters of the
repository's own tests. -/
def cdTest : ContractData :=
  { interest_rate := 500, claim_block_days := 7, token := 2, project_address := 1,
    admin := 0, state := .Actve, return_type := .ReverseLoan, return_months := 4,
    min_per_investment := 100000, goal := 1000000 }

/-- `cdTest` with the Coupon return model. -/
def cdCoupon : ContractData := { cdTest with return_type := .Coupon }

/-- `cdTest` with a rate that is not a multiple of 100. -/
def cdRate150 : ContractData := { cdTest with interest_rate := 150, return_type := .Coupon }

/-- A freshly initialized contract state under `cdTest`. -/
def stTest : ContractState :=
  { data := cdTest, balances := ContractBalances.new, investments := [], claims := [] }

/-- A Coupon-model investment standing immediately before its fourth and
final installment (three payments of 245 already made). -/
def invCouponFinal : Investment :=
  { deposited := 98000, accumulated_interests := 980, total := 98980,
    claimable_ts := 0, last_transfer_ts := 0, status := .CashFlowing,
    regular_payment := 245, paid := 735 }

/-- A contract state under the Coupon model holding `invCouponFinal` for
investor 7 and a funded reserve. -/
def stCoupon : ContractState :=
  { data := cdCoupon,
    balances := { ContractBalances.new with reserve := 100000 },
    investments := [((7, 0), invCouponFinal)],
    claims := [] }

/-- `invCouponFinal` after its final installment at ledger time 10: the
principal joined the payout, so `paid` reaches the full 98980 total. -/
def invCouponDone : Investment :=
  { deposited := 98000, accumulated_interests := 980, total := 98980,
    claimable_ts := 0, last_transfer_ts := 10, status := .Finished,
    regular_payment := 245, paid := 98980 }

/-- A state holding three investment records exercising the three timing
errors of `process_investor_payment` at ledger time 50: investor 7 is not
claimable yet, investor 8 is finished, investor 9 paid out 20 seconds ago. -/
def stC8 : ContractState :=
  { data := cdTest,
    balances := { ContractBalances.new with reserve := 1000000 },
    investments :=
      [((7, 100), { invCouponFinal with claimable_ts := 100 }),
       ((8, 40), { invCouponFinal with claimable_ts := 40, status := .Finished }),
       ((9, 40), { invCouponFinal with claimable_ts := 40, last_transfer_ts := 30 })],
    claims := [] }

/-- A fresh multisig withdrawal request under `cdTest` (expected signers:
admin 0 and project address 1). -/
def multisigReqTest : MultisigRequest :=
  MultisigRequest.new cdTest "multisig_withdrawn" 2 40000 86400

/-- A fresh contract state whose configured funding goal (50000) is below
the net deposit of a single 100000 investment. -/
def stGoalSmall : ContractState :=
  { stTest with data := { cdTest with goal := 50000 } }

/-- The ReverseLoan record `invest` builds at time 0 under `cdTest` for a
100000 deposit (flat split: 2000 commission, 5000 reserve, 93000 invest;
principal 98000, interest 4900, total 102900, 4 installments of 25725). -/
def invRL1 : Investment :=
  { deposited := 98000, accumulated_interests := 4900, total := 102900,
    claimable_ts := 604800, last_transfer_ts := 0, status := .Blocked,
    regular_payment := 25725, paid := 0 }

/-- The same record built at time 1000 (claimable timestamp 605800). -/
def invRL2 : Investment := { invRL1 with claimable_ts := 605800 }

/-- A valid transition sequence from the fresh ledger: one investment of
100000 at rate 500, a company contribution, an investor payment, a company
withdrawal and an internal move. -/
def c1ops : List LedgerOp :=
  [.investment (Amount.from_investment 100000 500),
   .company_contribution 5000,
   .payment_to_investor 2000,
   .company_withdrawal 1000,
   .move_to_reserve 500]

/-! ## Theorems -/

/-- C6: the commission-rate denominator is NOT capped at `UPPER_DIVISOR`:
the cap comparison is applied to the scaled offset `a` rather than to the
returned `LOWER_DIVISOR + a`, so at amount 24100 (offset exactly 60) the
function returns 70 > 60, and at the larger amount 24500 it drops back to
60 — violating both the 60-cap and monotonicity claimed by the spec. -/
theorem c6_rate_denominator_cap_violation :
    calculate_rate_denominator 24100 = 70 ∧
    calculate_rate_denominator 24500 = 60 ∧
    UPPER_DIVISOR = 60 := by decide

/-- C2: `MultisigRequest::add_sig` is NOT idempotent.  On the fresh request
(expected signers 0 and 1), adding signer 0's signature twice leaves the
signed list `[0, 0]` with the second call returning count 2 — and, since
`is_completed` only compares lengths, the request then counts as completed
with a single distinct signer.  (Adding a non-expected principal, here 5,
does leave the request unchanged, as the claim also states.) -/
theorem c2_add_sig_not_idempotent :
    (((multisigReqTest.add_sig 0).1.add_sig 0).1).signed_addrs = [0, 0] ∧
    ((multisigReqTest.add_sig 0).1.add_sig 0).2 = 2 ∧
    (((multisigReqTest.add_sig 0).1.add_sig 0).1).is_completed = true ∧
    (multisigReqTest.add_sig 5).1 = multisigReqTest := by decide

/-- C1 counterexample: after a single investment transition on the fresh
ledger (amount 100000, rate 500), `reserve + project + comission` exceeds
`received_so_far - payments - project_withdrawals` by the commission 83 —
and the gap doubles after a second identical transition, so it is the
accumulated commission (plus, in general, company contributions), not a
bounded rounding residue. -/
theorem c1_counterexample :
    let b1 := recalculate_contract_balances_from_investment ContractBalances.new
      (Amount.from_investment 100000 500)
    let b2 := recalculate_contract_balances_from_investment b1
      (Amount.from_investment 100000 500)
    ¬ (b1.reserve + b1.project + b1.comission =
        b1.received_so_far - b1.payments - b1.project_withdrawals) ∧
    (b1.reserve + b1.project + b1.comission) -
      (b1.received_so_far - b1.payments - b1.project_withdrawals) = 83 ∧
    (b2.reserve + b2.project + b2.comission) -
      (b2.received_so_far - b2.payments - b2.project_withdrawals) = 166 := by decide

/-- C7 counterexample: `build_investment` computes the accrued interest as
`real_amount * (i_rate / 100) / 100` — the rate is integer-divided by 100
first — so for the rate 150 (not a multiple of 100) and amount 100000 the
record carries interest 980 while the claimed formula
`principal * rate / 100 / 100` gives 1470. -/
theorem c7_counterexample :
    ¬ ((build_investment 0 cdRate150 100000).accumulated_interests =
        Int.tdiv (Int.tdiv ((build_investment 0 cdRate150 100000).deposited *
          (cdRate150.interest_rate : Int)) 100) 100) ∧
    (build_investment 0 cdRate150 100000).accumulated_interests = 980 ∧
    Int.tdiv (Int.tdiv ((build_investment 0 cdRate150 100000).deposited *
      (cdRate150.interest_rate : Int)) 100) 100 = 1470 := by decide

/-- C10 counterexample: initialization does NOT accept a funding goal of 0:
`__constructor` rejects it with `GoalMustBeGreaterThanZero` (its own doc
comment says the goal must be > 0), so there is no "0 = unlimited" mode. -/
theorem c10_counterexample :
    __constructor 0 1 2 500 7 0 1 4 100 = .error .GoalMustBeGreaterThanZero := rfl

/-- C7 (amended): for every invest, the created record's accrued interest
equals `principal * (rate / 100) / 100` — the integer rate is divided by
100 before multiplying, which coincides with the claimed
`principal * rate / 100 / 100` only when the rate is a multiple of 100 —
while `claimable_ts = now + claim_block_days*86400` and
`regular_payment = interest / return_months` (Coupon) resp.
`total / return_months` (ReverseLoan) hold as claimed. -/
theorem c7_build_investment_fields (now : Nat) (cd : ContractData) (amount : Int) :
    (build_investment now cd amount).accumulated_interests =
      Int.tdiv ((build_investment now cd amount).deposited *
        Int.tdiv (cd.interest_rate : Int) 100) 100 ∧
    (build_investment now cd amount).claimable_ts = now + cd.claim_block_days * 86400 ∧
    (build_investment now cd amount).regular_payment =
      (match cd.return_type with
       | .Coupon => Int.tdiv (build_investment now cd amount).accumulated_interests
           (cd.return_months : Int)
       | .ReverseLoan => Int.tdiv (build_investment now cd amount).total
           (cd.return_months : Int)
       | .OneTimePayment => 0) := by
  refine ⟨rfl, rfl, ?_⟩
  cases h : cd.return_type <;> simp [build_investment, h]

/-- C10 (amended): there is no unlimited-goal mode.  Initialization rejects
`goal <= 0` with `GoalMustBeGreaterThanZero` (for any rate passing the
preceding check), and the goal check of `invest` applies unconditionally:
whenever the earlier checks pass and
`received_so_far + (to_invest + to_reserve)` exceeds the configured goal,
`invest` fails with `WouldExceedGoal`. -/
theorem c10_goal_semantics :
    (∀ admin project token i_rate cbd goal rt rm minv,
      0 < i_rate → goal ≤ 0 →
      __constructor admin project token i_rate cbd goal rt rm minv =
        .error .GoalMustBeGreaterThanZero) ∧
    (∀ now st addr amount bal tok,
      amount ≥ st.data.min_per_investment → st.data.state = .Actve → bal ≥ amount →
      st.data.goal < st.balances.received_so_far +
        ((Amount.from_investment amount st.data.interest_rate).amount_to_invest +
         (Amount.from_investment amount st.data.interest_rate).amount_to_reserve_fund) →
      (invest now st addr amount bal tok).2 = .error .WouldExceedGoal) := by
  constructor
  · intro admin project token i_rate cbd goal rt rm minv h1 h2
    unfold __constructor
    rw [if_neg (by omega), if_pos (by omega)]
  · intro now st addr amount bal tok h1 h2 h3 h4
    simp only [invest]
    rw [if_neg (by omega), if_neg (by simp [h2]), if_neg (by omega), if_pos (by omega)]

/-- C9: both `invest` and `process_investor_payment` are failure-atomic:
every error exit (argument checks, state checks, the goal check, the
reserve check and the external token-transfer failure) happens before the
first durable write, so an erroring call leaves the contract state exactly
as it found it. -/
theorem c9_failure_atomicity :
    (∀ now st addr amount bal transfer_ok e,
      (invest now st addr amount bal transfer_ok).2 = .error e →
      (invest now st addr amount bal transfer_ok).1 = st) ∧
    (∀ now st addr ts transfer_ok e,
      (process_investor_payment now st addr ts transfer_ok).2 = .error e →
      (process_investor_payment now st addr ts transfer_ok).1 = st) := by
  constructor
  · intro now st addr amount bal transfer_ok e
    simp only [invest]
    repeat' split
    all_goals intro h
    all_goals first
      | rfl
      | (exfalso; exact Except.noConfusion h)
  · intro now st addr ts transfer_ok e
    simp only [process_investor_payment]
    repeat' split
    all_goals intro h
    all_goals first
      | rfl
      | (exfalso; exact Except.noConfusion h)

/-- C8: on an existing investment record, `process_investor_payment` fails
with `AddressInvestmentIsNotClaimableYet` whenever `now < claimable_ts`;
once claimable, with `AddressInvestmentIsFinished` whenever the status is
`Finished`; and once claimable and unfinished, with
`AddressInvestmentNextTransferNotClaimableYet` whenever
`last_transfer_ts != 0` and less than `SECONDS_IN_MONTH` (30 days) has
passed since `last_transfer_ts` — in that order. -/
theorem c8_payment_error_order (now : Nat) (st : ContractState) (addr ts : Nat)
    (investment : Investment) (transfer_ok : Bool)
    (hget : get_investment st.investments addr ts = some investment) :
    (now < investment.claimable_ts →
      (process_investor_payment now st addr ts transfer_ok).2 =
        .error .AddressInvestmentIsNotClaimableYet) ∧
    (investment.claimable_ts ≤ now → investment.status = .Finished →
      (process_investor_payment now st addr ts transfer_ok).2 =
        .error .AddressInvestmentIsFinished) ∧
    (investment.claimable_ts ≤ now → investment.status ≠ .Finished →
      investment.last_transfer_ts ≠ 0 → investment.last_transfer_ts ≤ now →
      now - investment.last_transfer_ts < SECONDS_IN_MONTH →
      (process_investor_payment now st addr ts transfer_ok).2 =
        .error .AddressInvestmentNextTransferNotClaimableYet) := by
  simp only [process_investor_payment, hget]
  refine ⟨?_, ?_, ?_⟩
  · intro h
    rw [if_pos (by omega)]
  · intro h1 h2
    rw [if_neg (by omega), if_pos (by simp [h2])]
  · intro h1 h2 h3 h4 h5
    rw [if_neg (by omega), if_neg (by simp [h2]), if_pos (by push_neg; exact ⟨h3, by omega⟩)]

/-- Witness for C10: the amended theorem applied at `goal = 0` for the
constructor and at a 100000 deposit against the 50000 goal of
`stGoalSmall` for `invest`. -/
theorem c10_witness :
    __constructor 3 4 5 500 7 0 1 4 100 = .error .GoalMustBeGreaterThanZero ∧
    (invest 0 stGoalSmall 7 100000 1000000 true).2 = .error .WouldExceedGoal :=
  ⟨c10_goal_semantics.1 3 4 5 500 7 0 1 4 100 (by decide) (by decide),
   c10_goal_semantics.2 0 stGoalSmall 7 100000 1000000 true (by decide) (by decide)
     (by decide) (by decide)⟩

/-- Witness for C9: an `invest` below the minimum and a
`process_investor_payment` on a missing record both error and leave the
state untouched. -/
theorem c9_witness :
    (invest 0 stTest 7 50 1000000 true).1 = stTest ∧
    (process_investor_payment 0 stTest 7 3 true).1 = stTest :=
  ⟨c9_failure_atomicity.1 0 stTest 7 50 1000000 true .AmountLessThanMinimum (by decide),
   c9_failure_atomicity.2 0 stTest 7 3 true .AddressHasNotInvested (by decide)⟩

/-- Witness for C8: the three timing errors on the three records of `stC8`
at ledger time 50. -/
theorem c8_witness :
    (process_investor_payment 50 stC8 7 100 true).2 =
      .error .AddressInvestmentIsNotClaimableYet ∧
    (process_investor_payment 50 stC8 8 40 true).2 =
      .error .AddressInvestmentIsFinished ∧
    (process_investor_payment 50 stC8 9 40 true).2 =
      .error .AddressInvestmentNextTransferNotClaimableYet :=
  ⟨(c8_payment_error_order 50 stC8 7 100 { invCouponFinal with claimable_ts := 100 }
      true (by decide)).1 (by decide),
   (c8_payment_error_order 50 stC8 8 40
      { invCouponFinal with claimable_ts := 40, status := .Finished }
      true (by decide)).2.1 (by decide) (by decide),
   (c8_payment_error_order 50 stC8 9 40
      { invCouponFinal with claimable_ts := 40, last_transfer_ts := 30 }
      true (by decide)).2.2 (by decide) (by decide) (by decide) (by decide) (by decide)⟩

/-- Truncating division of `Nat` casts is `Nat` division. -/
theorem int_tdiv_ofNat (m n : Nat) : Int.tdiv (m : Int) (n : Int) = ((m / n : Nat) : Int) := rfl

/-- Truncating division of a `Nat` cast by the literal 100. -/
theorem int_tdiv_ofNat100 (m : Nat) : Int.tdiv (m : Int) (100 : Int) = ((m / 100 : Nat) : Int) := rfl

/-- The commission denominator is always at least `LOWER_DIVISOR` (10). -/
theorem ten_le_rate_denominator (amount : Int) : 10 ≤ calculate_rate_denominator amount := by
  unfold calculate_rate_denominator
  simp only [LOWER_DIVISOR, UPPER_DIVISOR]
  split
  · omega
  · split
    · omega
    · omega

/-- `Amount::from_investment` on a nonnegative amount, written through
`Nat` arithmetic. -/
theorem from_investment_ofNat (a i_rate : Nat) :
    Amount.from_investment (a : Int) i_rate =
      { amount_to_invest := (a : Int) -
          ((a * i_rate / calculate_rate_denominator (a : Int) / 100 / 100 : Nat) : Int) -
          ((a * 5 / 100 : Nat) : Int),
        amount_to_reserve_fund := ((a * 5 / 100 : Nat) : Int),
        amount_to_commission :=
          ((a * i_rate / calculate_rate_denominator (a : Int) / 100 / 100 : Nat) : Int) } := by
  simp only [Amount.from_investment]
  rw [show ((a : Int) * (i_rate : Int)) = ((a * i_rate : Nat) : Int) by push_cast; ring]
  rw [show ((a : Int) * 5) = ((a * 5 : Nat) : Int) by push_cast; ring]
  rw [int_tdiv_ofNat, int_tdiv_ofNat100, int_tdiv_ofNat100, int_tdiv_ofNat100]

/-- For a rate of at most 10000 the commission and the reserve share
together never exceed the amount. -/
theorem commission_reserve_le (a r d : Nat) (hr : r ≤ 10000) (hd : 10 ≤ d) :
    a * r / d / 100 / 100 + a * 5 / 100 ≤ a := by
  have h1 : a * r / d ≤ a * 1000 := by
    calc a * r / d ≤ a * 10000 / d := Nat.div_le_div_right (Nat.mul_le_mul_left a hr)
      _ ≤ a * 10000 / 10 := Nat.div_le_div_left hd (by norm_num)
      _ = a * 1000 := by omega
  have h2 : a * r / d / 100 / 100 ≤ a * 1000 / 100 / 100 :=
    Nat.div_le_div_right (Nat.div_le_div_right h1)
  omega

/-- C5: for every nonnegative amount and every basis-point-like rate (at
most 10000, i.e. at most 100%), the split of `Amount::from_investment`
satisfies `to_invest + to_reserve + to_commission = amount` and all three
components are nonnegative.  (The summation identity holds for all inputs
by construction; nonnegativity of `to_invest` is what needs the rate
bound: the callers in `contract.rs` never reject an amount or rate that
would drive `to_invest` negative, so validity is formalized as the stated
bounds.) -/
theorem c5_split_conservation (amount : Int) (i_rate : Nat)
    (hamount : 0 ≤ amount) (hrate : i_rate ≤ 10000) :
    (Amount.from_investment amount i_rate).amount_to_invest +
      (Amount.from_investment amount i_rate).amount_to_reserve_fund +
      (Amount.from_investment amount i_rate).amount_to_commission = amount ∧
    0 ≤ (Amount.from_investment amount i_rate).amount_to_invest ∧
    0 ≤ (Amount.from_investment amount i_rate).amount_to_reserve_fund ∧
    0 ≤ (Amount.from_investment amount i_rate).amount_to_commission := by
  obtain ⟨a, rfl⟩ := Int.eq_ofNat_of_zero_le hamount
  rw [from_investment_ofNat]
  have hle := commission_reserve_le a i_rate (calculate_rate_denominator (a : Int))
    hrate (ten_le_rate_denominator (a : Int))
  generalize a * i_rate / calculate_rate_denominator (a : Int) / 100 / 100 = c at hle ⊢
  generalize a * 5 / 100 = r at hle ⊢
  refine ⟨by ring, ?_, ?_, ?_⟩ <;> simp only <;> omega

/-- Witness for C5: the split of 100000 at rate 500 (83 commission, 5000
reserve, 94917 investable). -/
theorem c5_witness :
    (Amount.from_investment 100000 500).amount_to_invest +
      (Amount.from_investment 100000 500).amount_to_reserve_fund +
      (Amount.from_investment 100000 500).amount_to_commission = 100000 ∧
    0 ≤ (Amount.from_investment 100000 500).amount_to_invest ∧
    0 ≤ (Amount.from_investment 100000 500).amount_to_reserve_fund ∧
    0 ≤ (Amount.from_investment 100000 500).amount_to_commission :=
  c5_split_conservation 100000 500 (by decide) (by decide)

/-- Each valid transition preserves the accounting identity and the
nonnegativity of every ledger field. -/
theorem ledger_ops_preserve (ops : List LedgerOp) :
    ∀ b, ledger_invariant b → ledger_fields_nonneg b →
      ledger_ops_valid b ops = true →
      ledger_invariant (apply_ledger_ops b ops) ∧
      ledger_fields_nonneg (apply_ledger_ops b ops) := by
  induction ops with
  | nil =>
    intro b h1 h2 _
    exact ⟨h1, h2⟩
  | cons op ops ih =>
    intro b h1 h2 hv
    simp only [ledger_ops_valid, Bool.and_eq_true] at hv
    obtain ⟨hpre, hrest⟩ := hv
    simp only [apply_ledger_ops]
    refine ih _ ?_ ?_ hrest
    all_goals
      simp only [ledger_invariant, ledger_fields_nonneg, ContractBalances.sum] at h1 h2 ⊢
    all_goals
      cases op <;>
        simp only [LedgerOp.pre, Bool.and_eq_true, decide_eq_true_eq] at hpre <;>
        simp only [LedgerOp.apply, recalculate_contract_balances_from_investment,
          increment_reserve_balance_from_company_contribution,
          decrement_project_balance_from_company_withdrawal,
          decrement_project_balance_from_payment_to_investor,
          move_from_project_balance_to_reserve_balance] <;>
        omega

/-- C1 (amended): for every sequence of ledger transitions applied to a
fresh `ContractBalances` in which each step's amounts are nonnegative and
its caller-side balance check (as performed in `contract.rs`) holds, the
pools satisfy
`reserve + project + comission
   = received_so_far + comission + reserve_contributions - payments - project_withdrawals`
— i.e. the claimed identity corrected by the commission pool and the
company contributions, which `received_so_far` does not count — and no
ledger field is ever negative. -/
theorem c1_ledger_invariant (ops : List LedgerOp)
    (hvalid : ledger_ops_valid ContractBalances.new ops = true) :
    ledger_invariant (apply_ledger_ops ContractBalances.new ops) ∧
    ledger_fields_nonneg (apply_ledger_ops ContractBalances.new ops) :=
  ledger_ops_preserve ops ContractBalances.new
    (by simp [ledger_invariant, ContractBalances.sum, ContractBalances.new])
    (by simp [ledger_fields_nonneg, ContractBalances.new])
    hvalid

/-- Witness for C1: the five-step sequence `c1ops` (investment,
contribution, payment, withdrawal, move) is valid from the fresh ledger
and the amended theorem applies to it. -/
theorem c1_witness :
    ledger_ops_valid ContractBalances.new c1ops = true ∧
    ledger_invariant (apply_ledger_ops ContractBalances.new c1ops) ∧
    ledger_fields_nonneg (apply_ledger_ops ContractBalances.new c1ops) :=
  ⟨by decide, c1_ledger_invariant c1ops (by decide)⟩

/-- A Coupon-model payment that marks the record `Finished` pays out the
regular payment plus the deposited principal, and records the sum in
`paid`. -/
theorem process_investment_payment_coupon_finished (now : Nat)
    (investment : Investment) (cd : ContractData)
    (hcoupon : cd.return_type = .Coupon)
    (hnotfin : investment.status ≠ .Finished)
    (hfin : (process_investment_payment now investment cd).1.status = .Finished) :
    (process_investment_payment now investment cd).1.paid =
      investment.paid + (investment.regular_payment + investment.deposited) ∧
    (process_investment_payment now investment cd).2 =
      investment.regular_payment + investment.deposited := by
  rcases hpr : process_investment_payment now investment cd with ⟨inv2, amt⟩
  rw [hpr] at hfin
  dsimp only at hfin ⊢
  simp only [process_investment_payment] at hpr
  split at hpr
  · rename_i hcond
    rw [hcoupon] at hcond
    simp at hcond
  · split at hpr
    · injection hpr with h1 h2
      subst h1
      subst h2
      dsimp only at hfin ⊢
      constructor
      · omega
      · rfl
    · injection hpr with h1 h2
      subst h1
      dsimp only at hfin
      split at hfin
      · simp at hfin
      · exact absurd hfin hnotfin

/-- C4: when `process_investor_payment` succeeds on a Coupon investment
and that payment marks the record `Finished`, the single transferred
amount — the one checked against the reserve and recorded in the ledger by
`decrement_project_balance_from_payment_to_investor` — equals
`regular_payment + deposited`: the returned principal rides on
`amount_to_transfer`, and `paid` grows by the same sum. -/
theorem c4_coupon_final_payment (now : Nat) (st : ContractState) (addr ts : Nat)
    (investment investment' : Investment) (transfer_ok : Bool)
    (hget : get_investment st.investments addr ts = some investment)
    (hcoupon : st.data.return_type = .Coupon)
    (hnotfin : investment.status ≠ .Finished)
    (hok : (process_investor_payment now st addr ts transfer_ok).2 = .ok investment')
    (hfin : investment'.status = .Finished) :
    investment'.paid =
      investment.paid + (investment.regular_payment + investment.deposited) ∧
    (process_investor_payment now st addr ts transfer_ok).1.balances.payments =
      st.balances.payments + (investment.regular_payment + investment.deposited) ∧
    investment.regular_payment + investment.deposited ≤ st.balances.reserve := by
  rcases hp : process_investor_payment now st addr ts transfer_ok with ⟨st', r⟩
  rw [hp] at hok
  dsimp only at hok ⊢
  subst hok
  simp only [process_investor_payment, hget] at hp
  split at hp
  · simp at hp
  · split at hp
    · simp at hp
    · split at hp
      · simp at hp
      · split at hp
        · simp at hp
        · rename_i hg1 hg2 hg3 hg4
          rw [Prod.mk.injEq] at hp
          obtain ⟨hst, hr⟩ := hp
          injection hr with hinv
          have key := process_investment_payment_coupon_finished now investment
            st.data hcoupon hnotfin (by rw [hinv, hfin])
          refine ⟨?_, ?_, ?_⟩
          · rw [← hinv]
            exact key.1
          · rw [← hst]
            simp only [decrement_project_balance_from_payment_to_investor,
              update_investment, key.2]
          · rw [← key.2]
            exact not_not.mp hg3

/-- Witness for C4: the final installment of `invCouponFinal` at time 10
pays 245 + 98000 in a single checked transfer. -/
theorem c4_witness :
    invCouponDone.paid =
      invCouponFinal.paid +
        (invCouponFinal.regular_payment + invCouponFinal.deposited) ∧
    (process_investor_payment 10 stCoupon 7 0 true).1.balances.payments =
      stCoupon.balances.payments +
        (invCouponFinal.regular_payment + invCouponFinal.deposited) ∧
    invCouponFinal.regular_payment + invCouponFinal.deposited ≤
      stCoupon.balances.reserve :=
  c4_coupon_final_payment 10 stCoupon 7 0 invCouponFinal invCouponDone true
    (by decide) (by decide) (by decide) (by decide) (by decide)

/-- What a successful `invest` guarantees: the returned record is the one
`build_investment` computes at the call's ledger time, it is stored under
the composite key (addr, its claim timestamp) on top of the previous
store, and the configured claim lock period is untouched. -/
theorem invest_ok_spec (now : Nat) (st : ContractState) (addr : Nat)
    (amount bal : Int) (transfer_ok : Bool) (inv : Investment)
    (hok : (invest now st addr amount bal transfer_ok).2 = .ok inv) :
    inv = build_investment now st.data amount ∧
    (invest now st addr amount bal transfer_ok).1.investments =
      set_investment st.investments addr inv ∧
    (invest now st addr amount bal transfer_ok).1.data.claim_block_days =
      st.data.claim_block_days := by
  rcases hp : invest now st addr amount bal transfer_ok with ⟨st', r⟩
  rw [hp] at hok
  dsimp only at hok ⊢
  subst hok
  simp only [invest] at hp
  split at hp
  · simp at hp
  · split at hp
    · simp at hp
    · split at hp
      · simp at hp
      · split at hp
        · simp at hp
        · split at hp
          · simp at hp
          · rw [Prod.mk.injEq] at hp
            obtain ⟨hst, hr⟩ := hp
            injection hr with hinv
            subst hinv
            rw [← hst]
            refine ⟨rfl, ?_, ?_⟩ <;>
              split <;>
                simp [update_investment, set_investment]

/-- C3: investment records are keyed by (investor, claim timestamp): when
the same investor successfully invests twice at different ledger times,
the two records carry different claim timestamps and both remain
retrievable afterwards — the second `invest` does not overwrite the
first record. -/
theorem c3_two_investments_coexist (st : ContractState) (now1 now2 addr : Nat)
    (a1 a2 bal1 bal2 : Int) (inv1 inv2 : Investment)
    (h1 : (invest now1 st addr a1 bal1 true).2 = .ok inv1)
    (h2 : (invest now2 (invest now1 st addr a1 bal1 true).1 addr a2 bal2 true).2 =
      .ok inv2)
    (hne : now1 ≠ now2) :
    inv1.claimable_ts ≠ inv2.claimable_ts ∧
    get_investment
      (invest now2 (invest now1 st addr a1 bal1 true).1 addr a2 bal2 true).1.investments
      addr inv1.claimable_ts = some inv1 ∧
    get_investment
      (invest now2 (invest now1 st addr a1 bal1 true).1 addr a2 bal2 true).1.investments
      addr inv2.claimable_ts = some inv2 := by
  obtain ⟨e1, s1, d1⟩ := invest_ok_spec now1 st addr a1 bal1 true inv1 h1
  obtain ⟨e2, s2, d2⟩ := invest_ok_spec now2 _ addr a2 bal2 true inv2 h2
  have hc1 : inv1.claimable_ts = now1 + st.data.claim_block_days * 86400 := by
    rw [e1]; rfl
  have hc2 : inv2.claimable_ts = now2 + st.data.claim_block_days * 86400 := by
    rw [e2]
    show now2 + (invest now1 st addr a1 bal1 true).1.data.claim_block_days * 86400 = _
    rw [d1]
  have hcc : inv1.claimable_ts ≠ inv2.claimable_ts := by
    rw [hc1, hc2]
    omega
  have hkey : ((addr, inv1.claimable_ts) == (addr, inv2.claimable_ts)) = false := by
    simp [hcc]
  refine ⟨hcc, ?_, ?_⟩
  · rw [s2, s1]
    simp [get_investment, set_investment, List.lookup, hkey]
  · rw [s2]
    simp [get_investment, set_investment, List.lookup]

/-- Witness for C3: investor 7 invests 100000 at times 0 and 1000 under
`cdTest`; the records claim at 604800 and 605800 and both are found. -/
theorem c3_witness :
    invRL1.claimable_ts ≠ invRL2.claimable_ts ∧
    get_investment
      (invest 1000 (invest 0 stTest 7 100000 1000000 true).1 7 100000
        1000000 true).1.investments 7 invRL1.claimable_ts = some invRL1 ∧
    get_investment
      (invest 1000 (invest 0 stTest 7 100000 1000000 true).1 7 100000
        1000000 true).1.investments 7 invRL2.claimable_ts = some invRL2 :=
  c3_two_investments_coexist stTest 0 1000 7 100000 100000 1000000 1000000
    invRL1 invRL2 (by decide) (by decide) (by decide)
